import Mathlib

/-!
Shallow embedding of the cv_analyser core (domain entities, domain services,
and the AI response normalizer) and proofs about the claims of its
specification.

Modelling conventions:
* Python float and int score fields are modelled as exact rationals; the
  arithmetic in the business rules is exact in the rational model.
* Python datetime timestamps carry no claim-relevant structure and are
  modelled as Option Unit tokens (datetime.now() becomes some ()).
* Python exceptions are modelled with Except; the exception classes that the
  converters can raise or catch are listed in PyError.
-/

/-! ## Python string primitives

The Python str methods used by the core (strip, lower) are modelled
character-wise over the character list of the string, which matches their
behaviour on the payloads in scope (the Unicode corner cases where Python
departs from the ASCII behaviour are not exercised by any claim). -/

/-- Python str.strip: drop leading and trailing whitespace. -/
def pyStrip (s : String) : String :=
  String.mk
    (((s.toList.dropWhile Char.isWhitespace).reverse.dropWhile
      Char.isWhitespace).reverse)

/-- Python str.lower: lower each character. -/
def pyToLower (s : String) : String :=
  String.mk (s.toList.map Char.toLower)

/-! ## Entity model (src/src/domain/entities/__init__.py) -/

/-- Lifecycle status of a CV-Job match analysis. -/
inductive MatchStatus
  | pending
  | in_progress
  | completed
  | failed
deriving DecidableEq, Repr

/-- Skill proficiency levels. -/
inductive SkillLevel
  | beginner
  | intermediate
  | advanced
  | expert
deriving DecidableEq, Repr

/-- Represents a skill with proficiency level. -/
structure Skill where
  name : String
  level : SkillLevel
  years_experience : Option ℚ := none
  category : Option String := none
deriving DecidableEq, Repr

/-- Represents educational background. -/
structure Education where
  degree : String
  institution : String
  field_of_study : String
  graduation_year : Option ℚ := none
  gpa : Option ℚ := none
deriving DecidableEq, Repr

/-- Represents work experience. -/
structure Experience where
  position : String
  company : String
  duration_months : Int
  description : String
  skills_used : List String
  start_date : Option Unit := none
  end_date : Option Unit := none
deriving DecidableEq, Repr

/-- Core CV entity containing all extracted information.  The list fields are
already the post-construction state; the dataclass constructor together with
the None-replacing post-init hook is modelled by mkCV below. -/
structure CV where
  id : Option String := none
  filename : String := ""
  raw_text : String := ""
  name : Option String := none
  email : Option String := none
  phone : Option String := none
  location : Option String := none
  skills : List Skill := []
  education : List Education := []
  experience : List Experience := []
  certifications : List String := []
  languages : List String := []
  created_at : Option Unit := none
  updated_at : Option Unit := none
deriving DecidableEq, Repr

/-- The CV dataclass constructor: every list argument may be omitted or passed
as None (modelled by Option), and the post-init hook replaces None by the
empty list. -/
def mkCV (id : Option String) (filename raw_text : String)
    (name email phone location : Option String)
    (skills : Option (List Skill)) (education : Option (List Education))
    (experience : Option (List Experience))
    (certifications languages : Option (List String))
    (created_at updated_at : Option Unit) : CV :=
  { id := id, filename := filename, raw_text := raw_text, name := name,
    email := email, phone := phone, location := location,
    skills := skills.getD [], education := education.getD [],
    experience := experience.getD [],
    certifications := certifications.getD [],
    languages := languages.getD [],
    created_at := created_at, updated_at := updated_at }

/-- Calculate total years of experience: sum of durations in months over 12
(0.0 for an empty or absent experience list). -/
def CV.total_experience_years (cv : CV) : ℚ :=
  if cv.experience.isEmpty then 0
  else ((cv.experience.map (fun e => e.duration_months)).sum : ℚ) / 12

/-- Get the list of skill names. -/
def CV.skill_names (cv : CV) : List String :=
  cv.skills.map (fun s => s.name)

/-- Represents a specific job requirement. -/
structure JobRequirement where
  skill : String
  required_level : SkillLevel
  is_mandatory : Bool := true
  weight : ℚ := 1
deriving DecidableEq, Repr

/-- Core Job entity containing job description analysis. -/
structure Job where
  id : Option String := none
  title : String := ""
  company : String := ""
  description : String := ""
  required_skills : List JobRequirement := []
  preferred_skills : List JobRequirement := []
  min_experience_years : Int := 0
  required_education : List String := []
  required_certifications : List String := []
  location : Option String := none
  salary_range : Option String := none
  created_at : Option Unit := none
  updated_at : Option Unit := none
deriving DecidableEq, Repr

/-- The Job dataclass constructor with its None-replacing post-init hook. -/
def mkJob (id : Option String) (title company description : String)
    (required_skills preferred_skills : Option (List JobRequirement))
    (min_experience_years : Int)
    (required_education required_certifications : Option (List String))
    (location salary_range : Option String)
    (created_at updated_at : Option Unit) : Job :=
  { id := id, title := title, company := company, description := description,
    required_skills := required_skills.getD [],
    preferred_skills := preferred_skills.getD [],
    min_experience_years := min_experience_years,
    required_education := required_education.getD [],
    required_certifications := required_certifications.getD [],
    location := location, salary_range := salary_range,
    created_at := created_at, updated_at := updated_at }

/-- Get all required skill names. -/
def Job.all_required_skill_names (job : Job) : List String :=
  job.required_skills.map (fun r => r.skill)

/-- Get only mandatory skills. -/
def Job.mandatory_skills (job : Job) : List JobRequirement :=
  job.required_skills.filter (fun r => r.is_mandatory)

/-- Represents how well a CV skill matches a job requirement. -/
structure SkillMatch where
  skill_name : String
  cv_has_skill : Bool
  cv_skill_level : Option SkillLevel := none
  required_level : Option SkillLevel := none
  match_score : ℚ := 0
  gap_analysis : Option String := none
deriving DecidableEq, Repr

/-- Detailed analysis of how well a CV matches a job. -/
structure MatchAnalysis where
  cv_id : String
  job_id : String
  overall_score : ℚ := 0
  skills_score : ℚ := 0
  experience_score : ℚ := 0
  education_score : ℚ := 0
  skill_matches : List SkillMatch := []
  missing_skills : List String := []
  matching_skills : List String := []
  experience_gap_years : ℚ := 0
  recommendations : List String := []
  interview_tips : List String := []
  analysis_date : Option Unit := none
  ai_model_used : Option String := none
deriving DecidableEq, Repr

/-- The MatchAnalysis dataclass constructor with its None-replacing post-init
hook. -/
def mkMatchAnalysis (cv_id job_id : String)
    (overall_score skills_score experience_score education_score : ℚ)
    (skill_matches : Option (List SkillMatch))
    (missing_skills matching_skills : Option (List String))
    (experience_gap_years : ℚ)
    (recommendations interview_tips : Option (List String))
    (analysis_date : Option Unit) (ai_model_used : Option String) :
    MatchAnalysis :=
  { cv_id := cv_id, job_id := job_id,
    overall_score := overall_score, skills_score := skills_score,
    experience_score := experience_score, education_score := education_score,
    skill_matches := skill_matches.getD [],
    missing_skills := missing_skills.getD [],
    matching_skills := matching_skills.getD [],
    experience_gap_years := experience_gap_years,
    recommendations := recommendations.getD [],
    interview_tips := interview_tips.getD [],
    analysis_date := analysis_date, ai_model_used := ai_model_used }

/-- Main entity representing a CV-Job matching session. -/
structure Match where
  id : Option String := none
  cv_id : String := ""
  job_id : String := ""
  status : MatchStatus := .pending
  analysis : Option MatchAnalysis := none
  error_message : Option String := none
  created_at : Option Unit := none
  completed_at : Option Unit := none
  processing_time_seconds : Option ℚ := none
deriving DecidableEq, Repr

/-- Check if matching is completed successfully. -/
def Match.is_completed (m : Match) : Bool :=
  m.status = MatchStatus.completed && m.analysis.isSome

/-- Get recommendation level based on overall score. -/
def Match.recommendation_level (m : Match) : String :=
  match m.analysis with
  | none => "Unknown"
  | some a =>
    if a.overall_score ≥ 80 then "Highly Recommended"
    else if a.overall_score ≥ 60 then "Recommended"
    else if a.overall_score ≥ 40 then "Consider with Caution"
    else "Not Recommended"

/-! ## Validation service (src/src/domain/services/__init__.py) -/

/-- Validate CV entity and return list of validation errors. -/
def validate_cv (cv : CV) : List String :=
  (if (pyStrip cv.raw_text) = "" then ["CV must contain text content"] else []) ++
  (if cv.filename = "" then ["CV must have a filename"] else [])

/-- Validate Job entity and return list of validation errors. -/
def validate_job (job : Job) : List String :=
  (if (pyStrip job.title) = "" then ["Job must have a title"] else []) ++
  (if (pyStrip job.description) = "" then ["Job must have a description"] else []) ++
  (if job.min_experience_years < 0 then
    ["Minimum experience years cannot be negative"] else [])

/-- Validate match request parameters; the Python test combines falsiness of
the string with blankness after strip, which for strings is equivalent to
blankness after strip. -/
def validate_match_request (cv_id job_id : String) : List String :=
  (if cv_id = "" ∨ (pyStrip cv_id) = "" then ["CV ID is required"] else []) ++
  (if job_id = "" ∨ (pyStrip job_id) = "" then ["Job ID is required"] else [])

/-! ## Business rule engine (src/src/domain/services/__init__.py) -/

/-- Render a rational to one decimal place, modelling the Python .1f format
for the nonnegative values it is applied to (ties rounded up; the binary
float tie behaviour differs only on ties, which no claim touches). -/
def format1 (q : ℚ) : String :=
  let n : Int := ⌊q * 10 + 1 / 2⌋
  toString (n / 10) ++ "." ++ toString (n % 10)

/-- The recommendation line naming up to the first three missing skills. -/
def missingSkillsLine (a : MatchAnalysis) : String :=
  "Consider learning: " ++ String.intercalate ", " (a.missing_skills.take 3)

/-- The recommendation line stating the experience gap to one decimal. -/
def experienceGapLine (a : MatchAnalysis) : String :=
  "Gain " ++ format1 a.experience_gap_years ++
    " more years of relevant experience"

/-- Generate specific recommendations based on analysis
(MatchingService._generate_recommendations). -/
def generateRecommendations (cv : CV) (job : Job) (a : MatchAnalysis) :
    List String :=
  (if a.missing_skills.isEmpty then [] else [missingSkillsLine a]) ++
  (if a.experience_gap_years > 0 then [experienceGapLine a] else []) ++
  (if !job.required_education.isEmpty && !cv.education.isEmpty then
    let cv_degrees := cv.education.map (fun e => pyToLower e.degree)
    let missing_education :=
      job.required_education.filter (fun e => !cv_degrees.contains (pyToLower e))
    match missing_education with
    | [] => []
    | e :: _ => ["Consider pursuing: " ++ e]
  else [])

/-- The mandatory requirement skill names of the job that are absent from the
skill-name list of the CV (computed inside _apply_business_rules). -/
def missingMandatorySkills (cv : CV) (job : Job) : List String :=
  (job.mandatory_skills.map (fun r => r.skill)).filter
    (fun s => !cv.skill_names.contains s)

/-- Apply business rules to refine the analysis
(MatchingService._apply_business_rules).  Rule 1 fires only when the missing
mandatory list is non-empty; rule 2 fires when the experience condition
holds; rule 3 always extends the recommendations. -/
def applyBusinessRules (analysis : MatchAnalysis) (cv : CV) (job : Job) :
    MatchAnalysis :=
  let missing_mandatory := missingMandatorySkills cv job
  let a1 :=
    if missing_mandatory.isEmpty then analysis
    else
      { analysis with
        overall_score :=
          max 0 (analysis.overall_score -
            ((missing_mandatory.length : ℚ) * (1 / 10)) * 100) }
  let a2 :=
    if cv.total_experience_years ≥ (job.min_experience_years : ℚ) then
      let exp_diff := cv.total_experience_years -
        (job.min_experience_years : ℚ)
      { a1 with
        overall_score :=
          min 100 (a1.overall_score +
            (min (1 / 10) (exp_diff * (2 / 100))) * 100) }
    else a1
  { a2 with
    recommendations := a2.recommendations ++ generateRecommendations cv job a2 }

/-! ## JSON payload model and Python runtime primitives for the normalizer
(src/src/infrastructure/ai/converters.py) -/

/-- Values of the semi-structured payload produced by parsing the collaborator
response (the possible results of the Python json module: null, bool, number,
string, array, object). -/
inductive JValue
  | jnull
  | jbool (b : Bool)
  | jnum (q : ℚ)
  | jstr (s : String)
  | jarr (items : List JValue)
  | jobj (fields : List (String × JValue))

/-- The Python exception classes the converters can raise or catch. -/
inductive PyError
  | attributeError
  | valueError
  | typeError
deriving DecidableEq, Repr

/-- Python dict.get with a default: returns the stored value when the key is
present (even when that value is None), the default when absent, and raises
AttributeError when the receiver is not a dict. -/
def JValue.getD (v : JValue) (key : String) (dflt : JValue) :
    Except PyError JValue :=
  match v with
  | .jobj fields =>
    match fields.lookup key with
    | some x => .ok x
    | none => .ok dflt
  | _ => .error .attributeError

/-- Python str.lower: defined on strings only; any other payload value has no
lower attribute and raises AttributeError. -/
def pyLower (v : JValue) : Except PyError String :=
  match v with
  | .jstr s => .ok (pyToLower s)
  | _ => .error .attributeError

/-- Python truthiness of a payload value. -/
def JValue.truthy : JValue → Bool
  | .jnull => false
  | .jbool b => b
  | .jnum q => q ≠ 0
  | .jstr s => s ≠ ""
  | .jarr items => !items.isEmpty
  | .jobj fields => !fields.isEmpty

/-- Python iteration over a payload value: lists yield their items, strings
their characters, dicts their keys; the remaining values are not iterable and
raise TypeError. -/
def pyIter : JValue → Except PyError (List JValue)
  | .jarr items => .ok items
  | .jstr s => .ok (s.toList.map (fun c => .jstr (String.mk [c])))
  | .jobj fields => .ok (fields.map (fun p => .jstr p.1))
  | _ => .error .typeError

/-- The SkillLevel enum constructor: raises ValueError on a string outside the
canonical four values (every call site pre-validates, so the error branch is
unreachable there). -/
def pySkillLevel (s : String) : Except PyError SkillLevel :=
  match s with
  | "beginner" => .ok .beginner
  | "intermediate" => .ok .intermediate
  | "advanced" => .ok .advanced
  | "expert" => .ok .expert
  | _ => .error .valueError

/-- The canonical skill level strings (valid_levels in the source). -/
def validLevels : List String :=
  ["beginner", "intermediate", "advanced", "expert"]

/-! Typed projections.  A Python dataclass stores constructor arguments
unconverted, so a payload value of the wrong shape would be stored as is; the
Lean entities are typed, so the converters project payload values into the
declared field types.  No claim depends on a field populated from a payload
value of the wrong shape. -/

/-- Project a payload value to a string field (empty string off-type). -/
def jStrD : JValue → String
  | .jstr s => s
  | _ => ""

/-- Project a payload value to an optional string field. -/
def jStrOpt : JValue → Option String
  | .jstr s => some s
  | _ => none

/-- Project a payload value to a numeric field (0 off-type). -/
def jNumD : JValue → ℚ
  | .jnum q => q
  | _ => 0

/-- Project a payload value to an optional numeric field. -/
def jNumOpt : JValue → Option ℚ
  | .jnum q => some q
  | _ => none

/-- Project a payload value to an integer field. -/
def jIntD : JValue → Int
  | .jnum q => ⌊q⌋
  | _ => 0

/-- Project a payload value to a boolean field; downstream code tests these
fields by truthiness, so the projection is truthiness. -/
def jBoolD (v : JValue) : Bool := v.truthy

/-- Project a payload value to a list-of-strings field. -/
def jStrListD : JValue → List String
  | .jarr items => items.filterMap jStrOpt
  | _ => []

/-- The body of the per-skill try block in convert_to_cv_entity: resolve the
level case-insensitively, substituting beginner for a missing or unrecognized
value, then build the Skill. -/
def convertSkillRec (sd : JValue) : Except PyError Skill := do
  let levelV ← sd.getD "level" (.jstr "beginner")
  let levelStr0 ← pyLower levelV
  let levelStr := if validLevels.contains levelStr0 then levelStr0
    else "beginner"
  let nameV ← sd.getD "name" (.jstr "")
  let level ← pySkillLevel levelStr
  let yearsV ← sd.getD "years_experience" .jnull
  let catV ← sd.getD "category" .jnull
  return { name := jStrD nameV, level := level,
           years_experience := jNumOpt yearsV, category := jStrOpt catV }

/-- Iterate sub-records with the per-record try block of the source: a
ValueError or TypeError from one record skips that record and continues; any
other exception propagates and aborts the whole iteration. -/
def skipInvalid (f : JValue → Except PyError α) :
    List JValue → Except PyError (List α)
  | [] => .ok []
  | x :: xs =>
    match f x with
    | .ok a =>
      match skipInvalid f xs with
      | .ok rest => .ok (a :: rest)
      | .error e => .error e
    | .error .valueError => skipInvalid f xs
    | .error .typeError => skipInvalid f xs
    | .error e => .error e

/-- One education sub-record (no try block in the source). -/
def convertEducationRec (ed : JValue) : Except PyError Education := do
  let degreeV ← ed.getD "degree" (.jstr "")
  let instV ← ed.getD "institution" (.jstr "")
  let fieldV ← ed.getD "field_of_study" (.jstr "")
  let yearV ← ed.getD "graduation_year" .jnull
  return { degree := jStrD degreeV, institution := jStrD instV,
           field_of_study := jStrD fieldV, graduation_year := jNumOpt yearV,
           gpa := none }

/-- One experience sub-record (no try block in the source). -/
def convertExperienceRec (ex : JValue) : Except PyError Experience := do
  let posV ← ex.getD "position" (.jstr "")
  let compV ← ex.getD "company" (.jstr "")
  let durV ← ex.getD "duration_months" (.jnum 0)
  let descV ← ex.getD "description" (.jstr "")
  let usedV ← ex.getD "skills_used" (.jarr [])
  return { position := jStrD posV, company := jStrD compV,
           duration_months := jIntD durV, description := jStrD descV,
           skills_used := jStrListD usedV }

/-- Convert extracted data to CV entity (convert_to_cv_entity). -/
def convert_to_cv_entity (data : JValue) (raw_text : String) :
    Except PyError CV := do
  let skillsV ← data.getD "skills" (.jarr [])
  let skillItems ← pyIter skillsV
  let skills ← skipInvalid convertSkillRec skillItems
  let eduV ← data.getD "education" (.jarr [])
  let eduItems ← pyIter eduV
  let education ← eduItems.mapM convertEducationRec
  let expV ← data.getD "experience" (.jarr [])
  let expItems ← pyIter expV
  let experience ← expItems.mapM convertExperienceRec
  let nameV ← data.getD "name" .jnull
  let emailV ← data.getD "email" .jnull
  let phoneV ← data.getD "phone" .jnull
  let locV ← data.getD "location" .jnull
  let certsV ← data.getD "certifications" (.jarr [])
  let langsV ← data.getD "languages" (.jarr [])
  return mkCV none "" raw_text (jStrOpt nameV) (jStrOpt emailV)
    (jStrOpt phoneV) (jStrOpt locV) (some skills) (some education)
    (some experience) (some (jStrListD certsV)) (some (jStrListD langsV))
    (some ()) none

/-- The body of the per-requirement try block for required skills in
convert_to_job_entity. -/
def convertRequiredSkillRec (sd : JValue) : Except PyError JobRequirement := do
  let levelV ← sd.getD "required_level" (.jstr "beginner")
  let levelStr0 ← pyLower levelV
  let levelStr := if validLevels.contains levelStr0 then levelStr0
    else "beginner"
  let skillV ← sd.getD "skill" (.jstr "")
  let level ← pySkillLevel levelStr
  let mandV ← sd.getD "is_mandatory" (.jbool true)
  let weightV ← sd.getD "weight" (.jnum 1)
  return { skill := jStrD skillV, required_level := level,
           is_mandatory := jBoolD mandV, weight := jNumD weightV }

/-- The body of the per-requirement try block for preferred skills in
convert_to_job_entity (is_mandatory forced to False, weight default 0.5). -/
def convertPreferredSkillRec (sd : JValue) :
    Except PyError JobRequirement := do
  let levelV ← sd.getD "required_level" (.jstr "beginner")
  let levelStr0 ← pyLower levelV
  let levelStr := if validLevels.contains levelStr0 then levelStr0
    else "beginner"
  let skillV ← sd.getD "skill" (.jstr "")
  let level ← pySkillLevel levelStr
  let weightV ← sd.getD "weight" (.jnum (1 / 2))
  return { skill := jStrD skillV, required_level := level,
           is_mandatory := false, weight := jNumD weightV }

/-- Convert extracted data to Job entity (convert_to_job_entity). -/
def convert_to_job_entity (data : JValue) (description : String) :
    Except PyError Job := do
  let reqV ← data.getD "required_skills" (.jarr [])
  let reqItems ← pyIter reqV
  let required_skills ← skipInvalid convertRequiredSkillRec reqItems
  let prefV ← data.getD "preferred_skills" (.jarr [])
  let prefItems ← pyIter prefV
  let preferred_skills ← skipInvalid convertPreferredSkillRec prefItems
  let titleV ← data.getD "title" (.jstr "")
  let compV ← data.getD "company" (.jstr "")
  let minYearsV ← data.getD "min_experience_years" (.jnum 0)
  let reqEduV ← data.getD "required_education" (.jarr [])
  let reqCertV ← data.getD "required_certifications" (.jarr [])
  let locV ← data.getD "location" .jnull
  let salV ← data.getD "salary_range" .jnull
  return mkJob none (jStrD titleV) (jStrD compV) description
    (some required_skills) (some preferred_skills) (jIntD minYearsV)
    (some (jStrListD reqEduV)) (some (jStrListD reqCertV)) (jStrOpt locV)
    (jStrOpt salV) (some ()) none

/-- The body of the per-skill-match try block in convert_to_match_analysis:
a truthy level value is lowered (AttributeError on a non-string) and kept
only when it is one of the canonical four; otherwise the field stays None. -/
def convertSkillMatchRec (md : JValue) : Except PyError SkillMatch := do
  let cvLevelV ← md.getD "cv_skill_level" .jnull
  let reqLevelV ← md.getD "required_level" .jnull
  let cv_skill_level ←
    if cvLevelV.truthy then do
      let s ← pyLower cvLevelV
      if validLevels.contains s then do
        let l ← pySkillLevel s
        pure (some l)
      else pure none
    else pure (none : Option SkillLevel)
  let required_level ←
    if reqLevelV.truthy then do
      let s ← pyLower reqLevelV
      if validLevels.contains s then do
        let l ← pySkillLevel s
        pure (some l)
      else pure none
    else pure (none : Option SkillLevel)
  let nameV ← md.getD "skill_name" (.jstr "")
  let hasV ← md.getD "cv_has_skill" (.jbool false)
  let scoreV ← md.getD "match_score" (.jnum 0)
  let gapV ← md.getD "gap_analysis" .jnull
  return { skill_name := jStrD nameV, cv_has_skill := jBoolD hasV,
           cv_skill_level := cv_skill_level, required_level := required_level,
           match_score := jNumD scoreV, gap_analysis := jStrOpt gapV }

/-- Convert match data to MatchAnalysis entity (convert_to_match_analysis). -/
def convert_to_match_analysis (data : JValue) (cv_id job_id : String) :
    Except PyError MatchAnalysis := do
  let smV ← data.getD "skill_matches" (.jarr [])
  let smItems ← pyIter smV
  let skill_matches ← skipInvalid convertSkillMatchRec smItems
  let overallV ← data.getD "overall_score" (.jnum 0)
  let skillsV ← data.getD "skills_score" (.jnum 0)
  let expV ← data.getD "experience_score" (.jnum 0)
  let eduV ← data.getD "education_score" (.jnum 0)
  let missV ← data.getD "missing_skills" (.jarr [])
  let matchV ← data.getD "matching_skills" (.jarr [])
  let gapV ← data.getD "experience_gap_years" (.jnum 0)
  let recsV ← data.getD "recommendations" (.jarr [])
  let tipsV ← data.getD "interview_tips" (.jarr [])
  return mkMatchAnalysis cv_id job_id (jNumD overallV) (jNumD skillsV)
    (jNumD expV) (jNumD eduV) (some skill_matches)
    (some (jStrListD missV)) (some (jStrListD matchV)) (jNumD gapV)
    (some (jStrListD recsV)) (some (jStrListD tipsV)) (some ())
    (some "gemini-1.5-flash")

/-! ## JSON isolation and CV extraction (src/src/infrastructure/ai/__init__.py) -/

/-- Custom exception for AI service errors (AIServiceError). -/
structure AIServiceError where
  msg : String
deriving DecidableEq, Repr

/-- Index of the first occurrence of a character (Python str.find, with the
-1 sentinel modelled as none). -/
def firstIdx (c : Char) : List Char → Option Nat
  | [] => none
  | x :: xs => if x = c then some 0 else (firstIdx c xs).map (· + 1)

/-- Index of the last occurrence of a character (Python str.rfind, with the
-1 sentinel modelled as none). -/
def lastIdx (c : Char) (l : List Char) : Option Nat :=
  match firstIdx c l.reverse with
  | some i => some (l.length - 1 - i)
  | none => none

/-- Extract JSON from an AI response that might contain extra text
(GeminiAIService._extract_json_from_response): slice from the first opening
brace to the last closing brace inclusive, failing when either is absent. -/
def extractJsonFromResponse (response : String) :
    Except AIServiceError String :=
  match firstIdx '\x7b' response.toList, lastIdx '\x7d' response.toList with
  | some s, some e =>
    .ok (String.mk ((response.toList.drop s).take (e + 1 - s)))
  | _, _ => .error { msg := "No JSON found in AI response" }

/-- Extract structured data from raw CV text
(GeminiAIService.extract_cv_data, after the collaborator round trip has
produced the response text): strip the response, fail on emptiness, isolate
the JSON substring, parse it, convert it, and wrap every failure in an
AIServiceError exactly as the except clauses of the source do.  The json
module is Python library code outside this repository, so the parse step is
passed in as a function; the interpolated text of a converter exception is
abbreviated. -/
def extract_cv_data (jsonLoads : String → Except String JValue)
    (raw_text response0 : String) : Except AIServiceError CV :=
  let response := pyStrip response0
  if response = "" then
    .error
      { msg := "Failed to extract CV data: Empty response from AI service" }
  else
    match extractJsonFromResponse response with
    | .error e => .error { msg := "Failed to extract CV data: " ++ e.msg }
    | .ok payload =>
      match jsonLoads payload with
      | .error e => .error { msg := "Invalid JSON response from AI: " ++ e }
      | .ok data =>
        match convert_to_cv_entity data raw_text with
        | .error _ =>
          .error { msg := "Failed to extract CV data: conversion error" }
        | .ok cv => .ok cv

/-! ## Definitions written from the words of the specification, for
comparison with the source-derived functions above. -/

/-- The overall score as the specification words it: reduce by ten points per
missing mandatory skill clamped at a floor of 0, then, when the experience
condition holds, boost by min(10, 2 x surplus) clamped at a ceiling of
100. -/
def specOverallScore (score : ℚ) (missing : ℕ) (cvYears minYears : ℚ) : ℚ :=
  let s1 := max 0 (score - 10 * missing)
  if cvYears ≥ minYears then
    min 100 (s1 + min 10 (2 * (cvYears - minYears)))
  else s1

/-- The payload as the specification words it: the substring of the response
from the first opening brace to the last closing brace, stated with takeWhile
lengths rather than the find primitives used by the source. -/
def specJsonPayload (s : String) : String :=
  let cs := s.toList
  let i := (cs.takeWhile (fun c => c ≠ '\x7b')).length
  let j := cs.length - 1 -
    (cs.reverse.takeWhile (fun c => c ≠ '\x7d')).length
  String.mk ((cs.drop i).take (j + 1 - i))

/-- Case-insensitive resolution of a level string against the canonical
four-value set, as the specification words it (none when unrecognized). -/
def specLevelOfString (s : String) : Option SkillLevel :=
  if pyToLower s = "beginner" then some .beginner
  else if pyToLower s = "intermediate" then some .intermediate
  else if pyToLower s = "advanced" then some .advanced
  else if pyToLower s = "expert" then some .expert
  else none

/-- Level resolution with the safe default the specification prescribes for
skills and requirements: beginner when missing or unrecognized. -/
def specLevelDefault (s : String) : SkillLevel :=
  (specLevelOfString s).getD .beginner

/-! ## Concrete example entities used by witnesses and counterexamples. -/

/-- A CV with one skill and three years of experience. -/
def cvW : CV :=
  { raw_text := "experienced developer", filename := "cv.pdf",
    skills := [{ name := "python", level := .advanced }],
    experience := [{ position := "dev", company := "acme",
                     duration_months := 36, description := "backend work",
                     skills_used := ["python"] }] }

/-- A job with two mandatory requirements, one of which the example CV
lacks, and no minimum experience. -/
def jobW : Job :=
  { title := "engineer", description := "build things",
    required_skills := [{ skill := "python", required_level := .intermediate },
      { skill := "haskell", required_level := .expert }] }

/-- An analysis with base overall score 95. -/
def aW : MatchAnalysis := { cv_id := "c", job_id := "j", overall_score := 95 }

/-- A CV with no skills, no experience and no education. -/
def cvE : CV := { raw_text := "plain text", filename := "cv.pdf" }

/-- A job requiring one year of experience and nothing else. -/
def jobE1 : Job :=
  { title := "engineer", description := "build", min_experience_years := 1 }

/-- An analysis whose overall score is already negative. -/
def aNeg : MatchAnalysis :=
  { cv_id := "c", job_id := "j", overall_score := -5 }

/-- An analysis whose overall score is already above the ceiling. -/
def a150 : MatchAnalysis :=
  { cv_id := "c", job_id := "j", overall_score := 150 }

/-- An analysis with nothing to report in the recommendation steps. -/
def aE : MatchAnalysis := { cv_id := "c", job_id := "j" }

/-- A job listing one required education entry. -/
def jobEdu : Job :=
  { title := "engineer", description := "build",
    required_education := ["PhD in CS"] }

/-- A match session holding an analysis with score 79.9. -/
def matchW : Match :=
  { cv_id := "c", job_id := "j", status := .completed,
    analysis := some { cv_id := "c", job_id := "j",
                       overall_score := 799 / 10 } }

/-- A CV with one education entry that does not cover the required education
of jobEdu. -/
def cvEdu : CV :=
  { raw_text := "text", filename := "cv.pdf",
    education := [{ degree := "BSc in Math", institution := "U",
                    field_of_study := "Math" }] }

/-! ## Helper lemmas about the business rule engine. -/

/-- The overall score computed by the engine agrees with the formula of the
specification whenever the input score is nonnegative or at least one
mandatory skill is missing; the remaining case is settled separately by a
counterexample. -/
theorem applyBusinessRules_overall_score (a : MatchAnalysis) (cv : CV)
    (job : Job)
    (h : 0 ≤ a.overall_score ∨ missingMandatorySkills cv job ≠ []) :
    (applyBusinessRules a cv job).overall_score =
      specOverallScore a.overall_score (missingMandatorySkills cv job).length
        cv.total_experience_years (job.min_experience_years : ℚ) := by
  by_cases hm : (missingMandatorySkills cv job).isEmpty
  · have hnil : missingMandatorySkills cv job = [] := List.isEmpty_iff.mp hm
    have h0 : 0 ≤ a.overall_score := by
      rcases h with h | h
      · exact h
      · exact absurd hnil h
    have hmax : max 0 a.overall_score = a.overall_score := max_eq_right h0
    have hlen : ((missingMandatorySkills cv job).length : ℚ) = 0 := by
      rw [hnil]; simp
    by_cases he : cv.total_experience_years ≥ (job.min_experience_years : ℚ)
    · simp [applyBusinessRules, specOverallScore, hm, he, hlen, hmax]
      rw [min_mul_of_nonneg _ _ (by norm_num : (0:ℚ) ≤ 100)]
      ring_nf
    · simp [applyBusinessRules, specOverallScore, hm, he, hlen, hmax]
  · by_cases he : cv.total_experience_years ≥ (job.min_experience_years : ℚ)
    · simp [applyBusinessRules, specOverallScore, hm, he]
      rw [min_mul_of_nonneg _ _ (by norm_num : (0:ℚ) ≤ 100)]
      ring_nf
    · simp [applyBusinessRules, specOverallScore, hm, he]
      ring_nf

/-- The formula of the specification stays within the declared range when
the input score does. -/
theorem specOverallScore_bounds (s : ℚ) (m : ℕ) (cy my : ℚ)
    (h1 : s ≤ 100) :
    0 ≤ specOverallScore s m cy my ∧ specOverallScore s m cy my ≤ 100 := by
  unfold specOverallScore
  have hm0 : (0:ℚ) ≤ 10 * m := by positivity
  have hs1l : (0:ℚ) ≤ max 0 (s - 10 * m) := le_max_left _ _
  have hs1u : max 0 (s - 10 * m) ≤ 100 := max_le (by norm_num) (by linarith)
  split
  · rename_i hge
    constructor
    · refine le_min (by norm_num) ?_
      have hb : (0:ℚ) ≤ min 10 (2 * (cy - my)) :=
        le_min (by norm_num) (by linarith)
      linarith
    · exact min_le_left _ _
  · exact ⟨hs1l, hs1u⟩

/-- Claim C1 (amended): for every analysis, CV and job, provided the input
overall score is nonnegative or at least one mandatory skill is missing, the
engine first reduces the score by 10 points per missing mandatory skill
clamped at a floor of 0, then, when the experience condition holds, adds
min(10, 2 x surplus) clamped at a ceiling of 100 — penalty before boost,
each step clamped independently. -/
theorem businessRules_score_formula (a : MatchAnalysis) (cv : CV) (job : Job)
    (h : 0 ≤ a.overall_score ∨ missingMandatorySkills cv job ≠ []) :
    (applyBusinessRules a cv job).overall_score =
      specOverallScore a.overall_score (missingMandatorySkills cv job).length
        cv.total_experience_years (job.min_experience_years : ℚ) :=
  applyBusinessRules_overall_score a cv job h

/-- Witness for claim C1: base 95 with one missing mandatory skill and a
three-year experience surplus yields exactly 91. -/
theorem businessRules_score_formula_witness :
    (applyBusinessRules aW cvW jobW).overall_score = 91 := by
  rw [businessRules_score_formula aW cvW jobW (Or.inl (by norm_num [aW]))]
  have hlen : (missingMandatorySkills cvW jobW).length = 1 := by decide
  have hyears : cvW.total_experience_years = 3 := by
    norm_num [CV.total_experience_years, cvW]
  have hmin : ((jobW.min_experience_years : Int) : ℚ) = 0 := by
    norm_num [jobW]
  rw [hlen, hyears, hmin]
  norm_num [aW, specOverallScore, min_def, max_def]

/-- Counterexample for claim C1 as stated: with a negative input score and no
missing mandatory skill, the engine leaves the score untouched while the
formula of the claim clamps the penalty step at 0. -/
theorem businessRules_score_formula_counterexample :
    (applyBusinessRules aNeg cvE jobE1).overall_score = -5 ∧
    specOverallScore aNeg.overall_score
      (missingMandatorySkills cvE jobE1).length
      cvE.total_experience_years ((jobE1.min_experience_years : Int) : ℚ) =
      0 ∧
    (applyBusinessRules aNeg cvE jobE1).overall_score ≠
      specOverallScore aNeg.overall_score
        (missingMandatorySkills cvE jobE1).length
        cvE.total_experience_years ((jobE1.min_experience_years : Int) : ℚ) := by
  have h1 : (applyBusinessRules aNeg cvE jobE1).overall_score = -5 := by
    decide
  have h2 : specOverallScore aNeg.overall_score
      (missingMandatorySkills cvE jobE1).length
      cvE.total_experience_years ((jobE1.min_experience_years : Int) : ℚ) =
      0 := by
    have hlen : (missingMandatorySkills cvE jobE1).length = 0 := by decide
    have hyears : cvE.total_experience_years = 0 := by
      norm_num [CV.total_experience_years, cvE]
    have hmin : ((jobE1.min_experience_years : Int) : ℚ) = 1 := by
      norm_num [jobE1]
    rw [hlen, hyears, hmin]
    norm_num [aNeg, specOverallScore, min_def, max_def]
  refine ⟨h1, h2, ?_⟩
  rw [h1, h2]
  norm_num

/-- Claim C2 (amended): whenever the input overall score is within the
declared range, the refined overall score is within the declared range. -/
theorem businessRules_score_in_range (a : MatchAnalysis) (cv : CV) (job : Job)
    (h0 : 0 ≤ a.overall_score) (h1 : a.overall_score ≤ 100) :
    0 ≤ (applyBusinessRules a cv job).overall_score ∧
      (applyBusinessRules a cv job).overall_score ≤ 100 := by
  rw [applyBusinessRules_overall_score a cv job (Or.inl h0)]
  exact specOverallScore_bounds _ _ _ _ h1

/-- Witness for claim C2 at a concrete in-range input. -/
theorem businessRules_score_in_range_witness :
    0 ≤ (applyBusinessRules aW cvW jobW).overall_score ∧
      (applyBusinessRules aW cvW jobW).overall_score ≤ 100 :=
  businessRules_score_in_range aW cvW jobW (by norm_num [aW])
    (by norm_num [aW])

/-- Counterexample for claim C2 as stated: an input score of 150 with no rule
firing passes through the engine unclamped. -/
theorem businessRules_score_in_range_counterexample :
    (applyBusinessRules a150 cvE jobE1).overall_score = 150 ∧
    ¬((applyBusinessRules a150 cvE jobE1).overall_score ≤ 100) := by
  constructor
  · decide
  · decide

/-! ## Recommendation augmentation and derived labels. -/

/-- The head of a filtered list is its first match. -/
theorem head_of_filter (p : α → Bool) (l : List α) :
    (l.filter p).head? = l.find? p := by
  induction l with
  | nil => rfl
  | cons a as ih =>
    by_cases h : p a <;> simp [List.filter_cons, List.find?_cons, h, ih]

/-- The engine extends the recommendation list of the analysis with the
generated recommendations, which depend only on fields the score rules do
not touch. -/
theorem applyBusinessRules_recommendations (a : MatchAnalysis) (cv : CV)
    (job : Job) :
    (applyBusinessRules a cv job).recommendations =
      a.recommendations ++ generateRecommendations cv job a := by
  by_cases hm : (missingMandatorySkills cv job).isEmpty <;>
    by_cases he : cv.total_experience_years ≥ (job.min_experience_years : ℚ) <;>
    simp [applyBusinessRules, generateRecommendations, missingSkillsLine,
      experienceGapLine, hm, he]

/-- Claim C6 (amended): provided the CV has at least one education entry, the
engine appends exactly one line naming the first required education entry not
covered case-insensitively by the degree names of the CV, after the
missing-skills line and the experience-gap line when those apply, and no such
line when every required entry is covered or none is listed. -/
theorem educationRecommendation (cv : CV) (job : Job) (a : MatchAnalysis)
    (hcv : cv.education ≠ []) :
    (applyBusinessRules a cv job).recommendations =
      a.recommendations ++
      ((if a.missing_skills.isEmpty then [] else [missingSkillsLine a]) ++
       (if a.experience_gap_years > 0 then [experienceGapLine a] else []) ++
       (match job.required_education.find? (fun e =>
           !((cv.education.map (fun d => pyToLower d.degree)).contains
             (pyToLower e))) with
        | some u => ["Consider pursuing: " ++ u]
        | none => [])) := by
  rw [applyBusinessRules_recommendations]
  congr 1
  have hcv' : cv.education.isEmpty = false := by
    simp [List.isEmpty_iff, hcv]
  by_cases hreq : job.required_education = []
  · simp [generateRecommendations, hreq]
  · have hreq' : job.required_education.isEmpty = false := by
      simp [List.isEmpty_iff, hreq]
    simp only [generateRecommendations, hreq', hcv', Bool.not_false,
      Bool.and_self, if_true]
    congr 1
    set p := (fun e =>
      !((cv.education.map (fun d => pyToLower d.degree)).contains
        (pyToLower e))) with hp
    have hhead := head_of_filter p job.required_education
    cases hfl : job.required_education.filter p with
    | nil =>
      rw [hfl] at hhead
      have hfind : job.required_education.find? p = none := by
        simpa using hhead.symm
      rw [hfind]
    | cons b t =>
      rw [hfl] at hhead
      have hfind : job.required_education.find? p = some b := by
        simpa using hhead.symm
      rw [hfind]

/-- Witness for claim C6: a CV whose only degree does not cover the required
education receives exactly the one pursuing line. -/
theorem educationRecommendation_witness :
    (applyBusinessRules aE cvEdu jobEdu).recommendations =
      ["Consider pursuing: PhD in CS"] := by
  rw [educationRecommendation cvEdu jobEdu aE (by decide)]
  decide

/-- Counterexample for claim C6 as stated: a CV with no education entries is
not covered by the required education, yet the engine appends no line because
the source also requires the education list of the CV to be non-empty. -/
theorem educationRecommendation_counterexample :
    (applyBusinessRules aE cvE jobEdu).recommendations = [] ∧
    jobEdu.required_education = ["PhD in CS"] ∧
    cvE.education = [] := by
  refine ⟨by decide, rfl, rfl⟩

/-- Claim C7: with an analysis present, the recommendation label is the step
function of the overall score with boundaries 40, 60 and 80, the boundaries
included in the upper tier. -/
theorem recommendationLevel_step (m : Match) (a : MatchAnalysis)
    (hma : m.analysis = some a) :
    (80 ≤ a.overall_score → m.recommendation_level = "Highly Recommended") ∧
    (60 ≤ a.overall_score → a.overall_score < 80 →
      m.recommendation_level = "Recommended") ∧
    (40 ≤ a.overall_score → a.overall_score < 60 →
      m.recommendation_level = "Consider with Caution") ∧
    (a.overall_score < 40 → m.recommendation_level = "Not Recommended") := by
  have hrl : m.recommendation_level =
      if a.overall_score ≥ 80 then "Highly Recommended"
      else if a.overall_score ≥ 60 then "Recommended"
      else if a.overall_score ≥ 40 then "Consider with Caution"
      else "Not Recommended" := by
    simp [Match.recommendation_level, hma]
  refine ⟨fun h1 => ?_, fun h1 h2 => ?_, fun h1 h2 => ?_, fun h1 => ?_⟩
  · rw [hrl, if_pos h1]
  · rw [hrl, if_neg (by linarith : ¬(a.overall_score ≥ 80)), if_pos h1]
  · rw [hrl, if_neg (by linarith : ¬(a.overall_score ≥ 80)),
      if_neg (by linarith : ¬(a.overall_score ≥ 60)), if_pos h1]
  · rw [hrl, if_neg (by linarith : ¬(a.overall_score ≥ 80)),
      if_neg (by linarith : ¬(a.overall_score ≥ 60)),
      if_neg (by linarith : ¬(a.overall_score ≥ 40))]

/-- Witness for claim C7: a score of 79.9 falls in the Recommended tier. -/
theorem recommendationLevel_step_witness :
    matchW.recommendation_level = "Recommended" :=
  (recommendationLevel_step matchW _ rfl).2.1 (by norm_num) (by norm_num)

/-- Claim C10: a match without an analysis is labelled Unknown. -/
theorem recommendationLevel_without_analysis (m : Match)
    (h : m.analysis = none) : m.recommendation_level = "Unknown" := by
  simp [Match.recommendation_level, h]

/-- Witness for claim C10 at the default match session. -/
theorem recommendationLevel_without_analysis_witness :
    ({} : Match).recommendation_level = "Unknown" :=
  recommendationLevel_without_analysis {} rfl

/-! ## Validation service and entity construction invariants. -/

/-- Claim C8: each validation check accumulates every applicable violation
message in order, without stopping at the first, and a valid input yields the
empty list; the checks are total functions, so no expected bad input makes
them fail. -/
theorem validationService_accumulates :
    (∀ cv : CV, pyStrip cv.raw_text = "" → cv.filename = "" →
      validate_cv cv =
        ["CV must contain text content", "CV must have a filename"]) ∧
    (∀ cv : CV, pyStrip cv.raw_text ≠ "" → cv.filename ≠ "" →
      validate_cv cv = []) ∧
    (∀ job : Job, pyStrip job.title = "" → pyStrip job.description = "" →
      job.min_experience_years < 0 →
      validate_job job =
        ["Job must have a title", "Job must have a description",
         "Minimum experience years cannot be negative"]) ∧
    (∀ job : Job, pyStrip job.title ≠ "" → pyStrip job.description ≠ "" →
      0 ≤ job.min_experience_years → validate_job job = []) ∧
    (∀ s t : String, pyStrip s = "" → pyStrip t = "" →
      validate_match_request s t =
        ["CV ID is required", "Job ID is required"]) ∧
    (∀ s t : String, pyStrip s ≠ "" → pyStrip t ≠ "" →
      validate_match_request s t = []) := by
  refine ⟨?_, ?_, ?_, ?_, ?_, ?_⟩
  · intro cv h1 h2
    simp [validate_cv, h1, h2]
  · intro cv h1 h2
    simp [validate_cv, h1, h2]
  · intro job h1 h2 h3
    simp [validate_job, h1, h2, h3]
  · intro job h1 h2 h3
    simp [validate_job, h1, h2, not_lt.mpr h3]
  · intro s t h1 h2
    simp [validate_match_request, h1, h2]
  · intro s t h1 h2
    have hs : s ≠ "" := fun e => h1 (by rw [e]; rfl)
    have ht : t ≠ "" := fun e => h2 (by rw [e]; rfl)
    simp [validate_match_request, h1, h2, hs, ht]

/-- Witness for claim C8: a CV blank in both checked fields collects both
messages, and a well-formed CV collects none. -/
theorem validationService_accumulates_witness :
    validate_cv ({} : CV) =
      ["CV must contain text content", "CV must have a filename"] ∧
    validate_cv cvW = [] :=
  ⟨validationService_accumulates.1 ({} : CV) rfl rfl,
   validationService_accumulates.2.1 cvW (by decide) (by decide)⟩

/-- Claim C9: constructing a CV, Job or MatchAnalysis with any list-valued
argument omitted or passed as None yields the empty list in the
corresponding field, never an absent container. -/
theorem entities_default_lists :
    (∀ (i : Option String) (fn rt : String) (n e p l : Option String)
      (sk : Option (List Skill)) (ed : Option (List Education))
      (ex : Option (List Experience)) (ce la : Option (List String))
      (c u : Option Unit),
      (sk = none → (mkCV i fn rt n e p l sk ed ex ce la c u).skills = []) ∧
      (ed = none →
        (mkCV i fn rt n e p l sk ed ex ce la c u).education = []) ∧
      (ex = none →
        (mkCV i fn rt n e p l sk ed ex ce la c u).experience = []) ∧
      (ce = none →
        (mkCV i fn rt n e p l sk ed ex ce la c u).certifications = []) ∧
      (la = none →
        (mkCV i fn rt n e p l sk ed ex ce la c u).languages = [])) ∧
    (∀ (i : Option String) (t co d : String)
      (rs ps : Option (List JobRequirement)) (m : Int)
      (re rc : Option (List String)) (lo sa : Option String)
      (c u : Option Unit),
      (rs = none →
        (mkJob i t co d rs ps m re rc lo sa c u).required_skills = []) ∧
      (ps = none →
        (mkJob i t co d rs ps m re rc lo sa c u).preferred_skills = []) ∧
      (re = none →
        (mkJob i t co d rs ps m re rc lo sa c u).required_education = []) ∧
      (rc = none →
        (mkJob i t co d rs ps m re rc lo sa c u).required_certifications
          = [])) ∧
    (∀ (ci ji : String) (os ss es eds : ℚ)
      (sm : Option (List SkillMatch)) (ms mt : Option (List String))
      (gp : ℚ) (rcm tips : Option (List String)) (ad : Option Unit)
      (am : Option String),
      (sm = none →
        (mkMatchAnalysis ci ji os ss es eds sm ms mt gp rcm tips ad
          am).skill_matches = []) ∧
      (ms = none →
        (mkMatchAnalysis ci ji os ss es eds sm ms mt gp rcm tips ad
          am).missing_skills = []) ∧
      (mt = none →
        (mkMatchAnalysis ci ji os ss es eds sm ms mt gp rcm tips ad
          am).matching_skills = []) ∧
      (rcm = none →
        (mkMatchAnalysis ci ji os ss es eds sm ms mt gp rcm tips ad
          am).recommendations = []) ∧
      (tips = none →
        (mkMatchAnalysis ci ji os ss es eds sm ms mt gp rcm tips ad
          am).interview_tips = [])) := by
  refine ⟨?_, ?_, ?_⟩
  · intro i fn rt n e p l sk ed ex ce la c u
    exact ⟨fun h => by subst h; rfl, fun h => by subst h; rfl,
      fun h => by subst h; rfl, fun h => by subst h; rfl,
      fun h => by subst h; rfl⟩
  · intro i t co d rs ps m re rc lo sa c u
    exact ⟨fun h => by subst h; rfl, fun h => by subst h; rfl,
      fun h => by subst h; rfl, fun h => by subst h; rfl⟩
  · intro ci ji os ss es eds sm ms mt gp rcm tips ad am
    exact ⟨fun h => by subst h; rfl, fun h => by subst h; rfl,
      fun h => by subst h; rfl, fun h => by subst h; rfl,
      fun h => by subst h; rfl⟩

/-- Witness for claim C9 with every list argument passed as None. -/
theorem entities_default_lists_witness :
    (mkCV none "" "" none none none none none none none none none none
      none).skills = [] ∧
    (mkCV none "" "" none none none none none none none none none none
      none).education = [] ∧
    (mkCV none "" "" none none none none none none none none none none
      none).experience = [] ∧
    (mkCV none "" "" none none none none none none none none none none
      none).certifications = [] ∧
    (mkCV none "" "" none none none none none none none none none none
      none).languages = [] ∧
    (mkJob none "" "" "" none none 0 none none none none none
      none).required_skills = [] ∧
    (mkJob none "" "" "" none none 0 none none none none none
      none).preferred_skills = [] ∧
    (mkJob none "" "" "" none none 0 none none none none none
      none).required_education = [] ∧
    (mkJob none "" "" "" none none 0 none none none none none
      none).required_certifications = [] ∧
    (mkMatchAnalysis "c" "j" 0 0 0 0 none none none 0 none none none
      none).skill_matches = [] ∧
    (mkMatchAnalysis "c" "j" 0 0 0 0 none none none 0 none none none
      none).missing_skills = [] ∧
    (mkMatchAnalysis "c" "j" 0 0 0 0 none none none 0 none none none
      none).matching_skills = [] ∧
    (mkMatchAnalysis "c" "j" 0 0 0 0 none none none 0 none none none
      none).recommendations = [] ∧
    (mkMatchAnalysis "c" "j" 0 0 0 0 none none none 0 none none none
      none).interview_tips = [] := by
  obtain ⟨hcv, hjob, hma⟩ := entities_default_lists
  obtain ⟨h1, h2, h3, h4, h5⟩ :=
    hcv none "" "" none none none none none none none none none none none
  obtain ⟨h6, h7, h8, h9⟩ :=
    hjob none "" "" "" none none 0 none none none none none none
  obtain ⟨h10, h11, h12, h13, h14⟩ :=
    hma "c" "j" 0 0 0 0 none none none 0 none none none none
  exact ⟨h1 rfl, h2 rfl, h3 rfl, h4 rfl, h5 rfl, h6 rfl, h7 rfl, h8 rfl,
    h9 rfl, h10 rfl, h11 rfl, h12 rfl, h13 rfl, h14 rfl⟩

/-! ## Normalizer level resolution and error behaviour. -/

/-- Resolution of a pre-validated level string by the enum constructor equals
the resolution with safe default described by the specification. -/
theorem resolveLevel (s : String) :
    pySkillLevel (if pyToLower s ∈ validLevels then pyToLower s
      else "beginner") = .ok (specLevelDefault s) := by
  by_cases h : pyToLower s ∈ validLevels
  · rw [if_pos h]
    simp only [validLevels, List.mem_cons, List.mem_singleton,
      List.not_mem_nil, or_false] at h
    rcases h with h1 | h1 | h1 | h1 <;>
      simp [pySkillLevel, specLevelDefault, specLevelOfString, h1]
  · rw [if_neg h]
    simp only [validLevels, List.mem_cons, List.mem_singleton,
      List.not_mem_nil, or_false, not_or] at h
    obtain ⟨h1, h2, h3, h4⟩ := h
    simp [pySkillLevel, specLevelDefault, specLevelOfString, h1, h2, h3, h4]

/-- A recognized lowered level string is accepted by the enum constructor and
resolved by the specification to the same level. -/
theorem pySkillLevel_toLower_of_mem (s : String)
    (h : pyToLower s ∈ validLevels) :
    ∃ l, pySkillLevel (pyToLower s) = .ok l ∧
      specLevelOfString s = some l := by
  simp only [validLevels, List.mem_cons, List.mem_singleton,
    List.not_mem_nil, or_false] at h
  rcases h with h1 | h1 | h1 | h1
  · exact ⟨.beginner, by simp [pySkillLevel, h1],
      by simp [specLevelOfString, h1]⟩
  · exact ⟨.intermediate, by simp [pySkillLevel, h1],
      by simp [specLevelOfString, h1]⟩
  · exact ⟨.advanced, by simp [pySkillLevel, h1],
      by simp [specLevelOfString, h1]⟩
  · exact ⟨.expert, by simp [pySkillLevel, h1],
      by simp [specLevelOfString, h1]⟩

/-- An unrecognized level string resolves to none in the specification. -/
theorem specLevelOfString_of_not_mem (s : String)
    (h : pyToLower s ∉ validLevels) : specLevelOfString s = none := by
  simp only [validLevels, List.mem_cons, List.mem_singleton,
    List.not_mem_nil, or_false, not_or] at h
  obtain ⟨h1, h2, h3, h4⟩ := h
  simp [specLevelOfString, h1, h2, h3, h4]

/-- Claim C5: skill and requirement levels are resolved case-insensitively
against the canonical four values with beginner substituted for a missing or
unrecognized value and the record kept, while the per-skill level fields of a
skill match are left absent when the value is missing or unrecognized; a
payload with one skill of level ninja yields one Skill with level beginner
and no error. -/
theorem levelResolution :
    (∀ name s : String,
      convertSkillRec (.jobj [("name", .jstr name), ("level", .jstr s)]) =
        .ok { name := name, level := specLevelDefault s,
              years_experience := none, category := none }) ∧
    (∀ name : String,
      convertSkillRec (.jobj [("name", .jstr name)]) =
        .ok { name := name, level := .beginner,
              years_experience := none, category := none }) ∧
    (∀ name s : String,
      convertRequiredSkillRec
        (.jobj [("skill", .jstr name), ("required_level", .jstr s)]) =
        .ok { skill := name, required_level := specLevelDefault s,
              is_mandatory := true, weight := 1 }) ∧
    (∀ name s : String,
      convertSkillMatchRec (.jobj [("skill_name", .jstr name),
        ("cv_skill_level", .jstr s), ("required_level", .jstr s)]) =
        .ok { skill_name := name, cv_has_skill := false,
              cv_skill_level := specLevelOfString s,
              required_level := specLevelOfString s,
              match_score := 0, gap_analysis := none }) ∧
    (convert_to_cv_entity
      (.jobj [("skills", .jarr [.jobj [("name", .jstr "Python"),
        ("level", .jstr "ninja")]])]) "raw" =
      .ok (mkCV none "" "raw" none none none none
        (some [{ name := "Python", level := .beginner }]) (some [])
        (some []) (some []) (some []) (some ()) none)) := by
  refine ⟨?_, ?_, ?_, ?_, ?_⟩
  · intro name s
    simp [convertSkillRec, JValue.getD, pyLower, Bind.bind, Except.bind,
      List.lookup, pure, Except.pure]
    rw [resolveLevel s]
    simp [jStrD, jNumOpt, jStrOpt]
  · intro name
    simp [convertSkillRec, JValue.getD, pyLower, Bind.bind, Except.bind,
      List.lookup, pure, Except.pure, pyToLower, pySkillLevel, validLevels,
      jStrD, jNumOpt, jStrOpt]
  · intro name s
    simp [convertRequiredSkillRec, JValue.getD, pyLower, Bind.bind,
      Except.bind, List.lookup, pure, Except.pure]
    rw [resolveLevel s]
    simp [jStrD, jNumD, jBoolD, JValue.truthy]
  · intro name s
    simp only [convertSkillMatchRec, JValue.getD, List.lookup, Bind.bind,
      Except.bind, pure, Except.pure, pyLower]
    by_cases hs : s = ""
    · subst hs
      simp [JValue.truthy, specLevelOfString, pyToLower, jStrD, jNumD,
        jBoolD, jStrOpt]
    · by_cases hm : pyToLower s ∈ validLevels
      · obtain ⟨l, hl1, hl2⟩ := pySkillLevel_toLower_of_mem s hm
        simp [JValue.truthy, hs, hm, hl1, hl2, jStrD, jNumD, jBoolD,
          jStrOpt]
      · rw [specLevelOfString_of_not_mem s hm]
        simp [JValue.truthy, hs, hm, jStrD, jNumD, jBoolD, jStrOpt]
  · rfl

/-- Claim C3 evaluated at the failing input: a skills entry that is not a
mapping raises an AttributeError inside the per-record try block, which
catches only ValueError and TypeError, so the whole conversion aborts with
an error instead of returning a partial CV. -/
theorem convert_aborts_on_nondict_skill :
    convert_to_cv_entity (.jobj [("skills", .jarr [.jnum 42])]) "text" =
      .error .attributeError := by
  rfl

/-! ## JSON isolation lemmas. -/

/-- A character absent from a list has no first index. -/
theorem firstIdx_eq_none_of_not_mem {c : Char} {l : List Char}
    (h : c ∉ l) : firstIdx c l = none := by
  induction l with
  | nil => rfl
  | cons x xs ih =>
    have hx : ¬(x = c) :=
      fun e => h (by rw [e]; exact List.mem_cons_self c xs)
    have hxs : c ∉ xs := fun hm => h (List.mem_cons_of_mem x hm)
    simp [firstIdx, hx, ih hxs]

/-- The first index of a present character counts the characters before it. -/
theorem firstIdx_of_mem {c : Char} {l : List Char} (h : c ∈ l) :
    firstIdx c l = some ((l.takeWhile (fun x => x ≠ c)).length) := by
  induction l with
  | nil => cases h
  | cons x xs ih =>
    by_cases hx : x = c
    · subst hx
      simp [firstIdx, List.takeWhile_cons]
    · have hmem : c ∈ xs := by
        rcases List.mem_cons.mp h with h' | h'
        · exact absurd h'.symm hx
        · exact h'
      simp [firstIdx, hx, ih hmem, List.takeWhile_cons]

/-- Characters of the stripped string are characters of the string. -/
theorem mem_of_mem_pyStrip {a : Char} {s : String}
    (h : a ∈ (pyStrip s).toList) : a ∈ s.toList := by
  have h1 : a ∈ ((s.toList.dropWhile Char.isWhitespace).reverse.dropWhile
      Char.isWhitespace).reverse := h
  have h2 := List.mem_reverse.mp h1
  have h3 := (List.dropWhile_sublist _).subset h2
  have h4 := List.mem_reverse.mp h3
  exact (List.dropWhile_sublist _).subset h4

/-- An element the predicate rejects survives dropWhile. -/
theorem mem_dropWhile_of_not {p : α → Bool} {a : α} (hpa : p a = false) :
    ∀ {l : List α}, a ∈ l → a ∈ l.dropWhile p := by
  intro l
  induction l with
  | nil => intro h; cases h
  | cons x xs ih =>
    intro h
    by_cases hx : p x
    · have hmem : a ∈ xs := by
        rcases List.mem_cons.mp h with h' | h'
        · subst h'; rw [hpa] at hx; cases hx
        · exact h'
      simpa [List.dropWhile_cons, hx] using ih hmem
    · simpa [List.dropWhile_cons, hx] using h

/-- A non-whitespace character of the string survives stripping. -/
theorem mem_pyStrip_of_mem {a : Char} {s : String}
    (hw : a.isWhitespace = false) (h : a ∈ s.toList) :
    a ∈ (pyStrip s).toList := by
  show a ∈ ((s.toList.dropWhile Char.isWhitespace).reverse.dropWhile
    Char.isWhitespace).reverse
  exact List.mem_reverse.mpr (mem_dropWhile_of_not hw
    (List.mem_reverse.mpr (mem_dropWhile_of_not hw h)))

/-- With both braces present, the isolated payload is the substring from the
first opening brace to the last closing brace. -/
theorem extractJson_ok (r : String) (h1 : '\x7b' ∈ r.toList)
    (h2 : '\x7d' ∈ r.toList) :
    extractJsonFromResponse r = .ok (specJsonPayload r) := by
  have hr : '\x7d' ∈ r.toList.reverse := List.mem_reverse.mpr h2
  unfold extractJsonFromResponse lastIdx
  rw [firstIdx_of_mem h1, firstIdx_of_mem hr]
  rfl

/-- With either brace absent, the isolation step fails. -/
theorem extractJson_err (r : String)
    (h : '\x7b' ∉ r.toList ∨ '\x7d' ∉ r.toList) :
    extractJsonFromResponse r =
      .error { msg := "No JSON found in AI response" } := by
  rcases h with h | h
  · unfold extractJsonFromResponse
    cases hl : lastIdx '\x7d' r.toList
    all_goals rw [firstIdx_eq_none_of_not_mem h]
  · have hrev : firstIdx '\x7d' r.toList.reverse = none :=
      firstIdx_eq_none_of_not_mem (fun hm => h (List.mem_reverse.mp hm))
    have hlast : lastIdx '\x7d' r.toList = none := by
      unfold lastIdx
      rw [hrev]
    unfold extractJsonFromResponse
    cases hf : firstIdx '\x7b' r.toList
    all_goals rw [hlast]

/-- Claim C4: a response without an opening or closing brace fails before any
parse is attempted (the result is an error and does not depend on the
parser); with both braces the payload handed over is the substring from the
first opening to the last closing brace; and a parse failure on that payload
aborts the extraction with the same error kind, returning no entity. -/
theorem jsonIsolation :
    (∀ (p q : String → Except String JValue) (raw r : String),
      ('\x7b' ∉ r.toList ∨ '\x7d' ∉ r.toList) →
        extract_cv_data p raw r = extract_cv_data q raw r ∧
        ∃ err, extract_cv_data p raw r = .error err) ∧
    (∀ r : String, '\x7b' ∈ r.toList → '\x7d' ∈ r.toList →
      extractJsonFromResponse r = .ok (specJsonPayload r)) ∧
    (∀ (p : String → Except String JValue) (raw r msg : String),
      '\x7b' ∈ r.toList → '\x7d' ∈ r.toList →
      p (specJsonPayload (pyStrip r)) = .error msg →
      extract_cv_data p raw r =
        .error { msg := "Invalid JSON response from AI: " ++ msg }) := by
  refine ⟨?_, ?_, ?_⟩
  · intro p q raw r h
    by_cases hb : pyStrip r = ""
    · exact ⟨by simp [extract_cv_data, hb],
        ⟨{ msg := "Failed to extract CV data: Empty response from AI service" },
         by simp [extract_cv_data, hb]⟩⟩
    · have h' : '\x7b' ∉ (pyStrip r).toList ∨
          '\x7d' ∉ (pyStrip r).toList := by
        rcases h with h | h
        · exact Or.inl (fun hm => h (mem_of_mem_pyStrip hm))
        · exact Or.inr (fun hm => h (mem_of_mem_pyStrip hm))
      have he := extractJson_err (pyStrip r) h'
      exact ⟨by simp [extract_cv_data, hb, he],
        ⟨{ msg := "Failed to extract CV data: No JSON found in AI response" },
         by simp [extract_cv_data, hb, he]⟩⟩
  · intro r h1 h2
    exact extractJson_ok r h1 h2
  · intro p raw r msg h1 h2 hp
    have hb1 : '\x7b' ∈ (pyStrip r).toList :=
      mem_pyStrip_of_mem (by decide) h1
    have hb2 : '\x7d' ∈ (pyStrip r).toList :=
      mem_pyStrip_of_mem (by decide) h2
    have hbne : pyStrip r ≠ "" := by
      intro e
      rw [e] at hb1
      exact (by decide : ¬('\x7b' ∈ ("" : String).toList)) hb1
    simp [extract_cv_data, hbne, extractJson_ok (pyStrip r) hb1 hb2, hp]

/-- Witness for claim C4: a failing parser on a response with braces aborts
the extraction with the parse error message. -/
theorem jsonIsolation_witness :
    extract_cv_data (fun _ => .error "boom") "raw" "ab\x7b1\x7dc" =
      .error { msg := "Invalid JSON response from AI: boom" } :=
  jsonIsolation.2.2 (fun _ => .error "boom") "raw" "ab\x7b1\x7dc" "boom"
    (by decide) (by decide) rfl
